import Mathlib

/-!
Verification development for the agent-planner-agents repository.

The Python sources are shallowly embedded: environment variables become an
explicit record of optional strings, the filesystem becomes a predicate on
paths, exceptions become an `Except` error type, and the asynchronous calls
into the external agent framework (MCP server spawning, specialized agent
factories, the model call in the interactive loop) become explicit outcome
parameters, since their behaviour lives outside this repository.  The control
flow around those calls — truthiness checks, try/except structure, the
AsyncExitStack bookkeeping, the interactive loop — is translated faithfully
from the source files.
-/

/-- Python exceptions raised by this codebase: `ValueError`,
`FileNotFoundError`, and any other exception class. -/
inductive PyExc where
  | valueError : String → PyExc
  | fileNotFound : String → PyExc
  | other : String → PyExc
deriving Repr, DecidableEq

/-- The environment variables read by the repository (`os.environ.get`):
`none` models an unset variable. -/
structure Env where
  google_api_key : Option String := none
  google_search_engine_id : Option String := none
  brave_api_key : Option String := none
  planning_api_url : Option String := none
  planning_api_token : Option String := none
  planning_mcp_path : Option String := none
  context7_mcp_path : Option String := none
  filesystem_mcp_path : Option String := none
  playwright_mcp_path : Option String := none
  websearch_mcp_path : Option String := none
  workspace_path : Option String := none
deriving Repr, DecidableEq

/-- Python truthiness of an `os.environ.get` result: `None` and the empty
string are falsy, every other string is truthy. -/
def envTruthy : Option String → Bool
  | none => false
  | some s => !(s == "")

/-- `os.environ.get(var, default)` with a default. -/
def envGetD (v : Option String) (d : String) : String := v.getD d

/-- Embedding of `MCPServerConfig` from src/config.py. -/
structure MCPServerConfig where
  name : String
  path : Option String := none
  command : String := "node"
  args : List String := []
  env : List (String × String) := []
  enabled : Bool := true
deriving Repr, DecidableEq

/-- Embedding of `Config.__init__`: the `mcp_servers` dictionary, built from
the environment (src/config.py lines 92-130), as an association list in
insertion order. -/
def Config.mcp_servers (e : Env) : List (String × MCPServerConfig) :=
  [ ("planning",
      { name := "planning-system-mcp"
        path := e.planning_mcp_path
        command := "sh"
        args := if envTruthy e.planning_mcp_path then
                  ["-c", "cd " ++ envGetD e.planning_mcp_path "" ++ " && node src/index.js"]
                else []
        env := [ ("API_URL", envGetD e.planning_api_url "http://localhost:3000"),
                 ("USER_API_TOKEN", envGetD e.planning_api_token ""),
                 ("API_TOKEN", envGetD e.planning_api_token "") ]
        enabled := envTruthy e.planning_mcp_path && envTruthy e.planning_api_token }),
    ("filesystem",
      { name := "filesystem-mcp"
        command := "npx"
        args := ["-y", "@modelcontextprotocol/server-filesystem",
                 envGetD e.workspace_path "/Users/michmalk/dev/talkingagents"]
        enabled := true }),
    ("context7",
      { name := "context7-mcp"
        command := "npx"
        args := ["-y", "@upstash/context7-mcp@latest"]
        enabled := true }),
    ("playwright",
      { name := "playwright-mcp"
        command := "npx"
        args := ["@playwright/mcp@latest"]
        enabled := true }),
    ("websearch",
      { name := "websearch-mcp"
        command := "npx"
        args := ["-y", "@modelcontextprotocol/server-brave-search"]
        env := [("BRAVE_API_KEY", envGetD e.brave_api_key "")]
        enabled := envTruthy e.brave_api_key }) ]

/-- Embedding of `Config.get_enabled_mcp_servers` (src/config.py lines
166-172): the servers whose `enabled` flag is true. -/
def Config.get_enabled_mcp_servers (e : Env) : List (String × MCPServerConfig) :=
  (Config.mcp_servers e).filter (fun p => p.2.enabled)

/-- The `enabled` flag of the server registered under a given key. -/
def Config.serverEnabled (e : Env) (key : String) : Option Bool :=
  ((Config.mcp_servers e).lookup key).map (fun c => c.enabled)

/-- Result dictionary of `Config.validate`. -/
structure ValidationResult where
  valid : Bool
  issues : List String
  warnings : List String
deriving Repr, DecidableEq

/-- Embedding of `Config.validate` (src/config.py lines 132-164).
`pe` models `os.path.exists`. -/
def Config.validate (e : Env) (pe : String → Bool) : ValidationResult :=
  let issues :=
    (if envTruthy e.google_api_key then [] else ["GOOGLE_API_KEY is not set"]) ++
    (if envTruthy e.planning_mcp_path && !(pe (envGetD e.planning_mcp_path "")) then
       ["PLANNING_MCP_PATH does not exist: " ++ envGetD e.planning_mcp_path ""]
     else [])
  let warnings :=
    (if envTruthy e.planning_api_token then []
     else ["PLANNING_API_TOKEN is not set - planning features will be disabled"]) ++
    (if envTruthy e.google_search_engine_id then []
     else ["GOOGLE_SEARCH_ENGINE_ID not set - using default public search engine"]) ++
    (if envTruthy e.brave_api_key then []
     else ["BRAVE_API_KEY not set - Brave search will be unavailable"])
  { valid := issues.isEmpty, issues := issues, warnings := warnings }

/-- Embedding of `check_environment_setup` (src/run.py lines 282-311):
all three required variables must be truthy, and a truthy
`PLANNING_MCP_PATH` must name an existing path. -/
def check_environment_setup (e : Env) (pe : String → Bool) : Bool :=
  let missing_vars :=
    (if envTruthy e.google_api_key then [] else ["GOOGLE_API_KEY"]) ++
    (if envTruthy e.planning_mcp_path then [] else ["PLANNING_MCP_PATH"]) ++
    (if envTruthy e.planning_api_token then [] else ["PLANNING_API_TOKEN"])
  if !missing_vars.isEmpty then false
  else if envTruthy e.planning_mcp_path && !(pe (envGetD e.planning_mcp_path "")) then false
  else true

/-!
## MCP tool setup (src/tools/mcp_tools.py)

`MCPToolset.from_server` lives in the external framework; we model its
result abstractly.  A tool list is represented by its length, a framework
exit stack (sub-context) by a numeric identifier.
-/

/-- Possible shapes of the value returned by `MCPToolset.from_server`:
either a pair `(tools, exit_stack)`, or an object whose `tools` and
`exit_stack` attributes are read with `getattr` defaults (`[]` and `None`).
A tool list is modelled by its length, an exit stack by an identifier. -/
inductive MCPFromServer where
  | tuple (tools : Nat) (ctx : Nat)
  | object (toolsAttr : Nat) (stackAttr : Option Nat)
deriving Repr, DecidableEq

/-- The tail of `setup_planning_mcp_tools` and its four siblings
(src/tools/mcp_tools.py lines 52-71): accept a two-tuple as is, otherwise
try to extract `tools` and `exit_stack` attributes, raising `ValueError`
when either is falsy. -/
def extractToolsStack (r : MCPFromServer) : Except PyExc (Nat × Nat) :=
  match r with
  | .tuple tools ctx => .ok (tools, ctx)
  | .object toolsAttr stackAttr =>
    match stackAttr with
    | some ctx => if toolsAttr != 0 then .ok (toolsAttr, ctx)
                  else .error (.valueError "Could not extract tools and exit_stack")
    | none => .error (.valueError "Could not extract tools and exit_stack")

/-- Embedding of `setup_planning_mcp_tools` (src/tools/mcp_tools.py lines
12-71).  `pe` models `os.path.exists`; `fromServer` models the outcome of
the `MCPToolset.from_server` call (which may itself raise). -/
def setup_planning_mcp_tools (e : Env) (pe : String → Bool)
    (fromServer : Except PyExc MCPFromServer) : Except PyExc (Nat × Nat) :=
  if !(envTruthy e.planning_mcp_path) then
    .error (.valueError "PLANNING_MCP_PATH environment variable must be set")
  else if !(pe (envGetD e.planning_mcp_path "")) then
    .error (.fileNotFound ("PLANNING_MCP_PATH path does not exist: " ++
                           envGetD e.planning_mcp_path ""))
  else if !(envTruthy e.planning_api_token) then
    .error (.valueError "PLANNING_API_TOKEN environment variable must be set")
  else
    fromServer.bind extractToolsStack

/-!
## AsyncExitStack traces

Runs are recorded as event lists: entering the `AsyncExitStack`, entering a
sub-context into it (`enter_async_context`), calling the stack
`__aexit__`, the release of each sub-context performed by that call, warnings
printed by caught exceptions, one event per awaited agent call in the
interactive loop, and printed responses/errors.  An `AsyncExitStack` value is
the list of entered sub-context identifiers in acquisition order;
`__aexit__` releases them in reverse order (LIFO), which is the contract of
`contextlib.AsyncExitStack`.
-/

/-- Observable events of a run. -/
inductive Event where
  | enterStack
  | enterCtx (c : Nat)
  | aexitCalled
  | releaseCtx (c : Nat)
  | warn (who : String)
  | agentCall
  | printResponse (s : String)
  | printError (s : String)
deriving Repr, DecidableEq

/-- Events produced by `await exit_stack.__aexit__(...)` on a stack holding
the given sub-contexts in acquisition order: one `aexitCalled` event, then
the releases in reverse (LIFO) order. -/
def aexitEvents (stack : List Nat) : List Event :=
  Event.aexitCalled :: stack.reverse.map Event.releaseCtx

/-- The sub-contexts entered in a trace, in order. -/
def entersOf (tr : List Event) : List Nat :=
  tr.filterMap (fun ev => match ev with | Event.enterCtx c => some c | _ => none)

/-- The sub-contexts released in a trace, in order. -/
def releasesOf (tr : List Event) : List Nat :=
  tr.filterMap (fun ev => match ev with | Event.releaseCtx c => some c | _ => none)

/-- How many times `__aexit__` was called in a trace. -/
def aexitCount (tr : List Event) : Nat :=
  tr.countP (fun ev => ev == Event.aexitCalled)

/-!
## Coordinator agent (src/coordination/agent.py)

A specialized-agent factory call either returns a pair of (agent, its
framework exit stack) or raises; an agent is modelled by its name and the
framework exit stack by a sub-context identifier, so a factory outcome is
`Except PyExc (String × Nat)`.  The list of factories in the source is fixed:
backend, frontend, designer, research, tester, plan optimizer.
-/

/-- A factory list entry: display name paired with the outcome of awaiting
the factory. -/
abbrev FactoryOutcome := String × Except PyExc (String × Nat)

/-- Agents appended to `specialized_agents` by the factory loop
(src/coordination/agent.py lines 68-77): the successful outcomes, in order. -/
def factoryAgents : List FactoryOutcome → List String
  | [] => []
  | (_, .ok (a, _)) :: rest => a :: factoryAgents rest
  | (_, .error _) :: rest => factoryAgents rest

/-- Sub-contexts entered into the exit stack by the factory loop, in
acquisition order. -/
def factoryCtxs : List FactoryOutcome → List Nat
  | [] => []
  | (_, .ok (_, c)) :: rest => c :: factoryCtxs rest
  | (_, .error _) :: rest => factoryCtxs rest

/-- Events of the factory loop: an `enterCtx` per success, a `warn` per
caught factory exception. -/
def factoryEvents : List FactoryOutcome → List Event
  | [] => []
  | (_, .ok (_, c)) :: rest => Event.enterCtx c :: factoryEvents rest
  | (who, .error _) :: rest => Event.warn who :: factoryEvents rest

/-- The coordinator `Agent` value built at src/coordination/agent.py lines
132-172, restricted to the fields the claims are about. -/
structure Coordinator where
  name : String
  tools : Nat
  sub_agents : List String
deriving Repr, DecidableEq

/-- Embedding of `create_coordinator_agent` (src/coordination/agent.py lines
29-179).  It enters an `AsyncExitStack`, re-checks `PLANNING_MCP_PATH`,
runs `setup_planning_mcp_tools` and enters the planning stack, runs each
specialized-agent factory under a catch-all that warns and continues, and
builds the coordinator; any exception escaping the body reaches the
`except` branch, which calls the stack `__aexit__` and re-raises.  Returns
the Python-level result (coordinator and its exit stack, i.e. the entered
sub-contexts in acquisition order, or the propagated exception) together
with the event trace. -/
def create_coordinator_agent (e : Env) (pe : String → Bool)
    (fromServer : Except PyExc MCPFromServer)
    (factories : List FactoryOutcome) :
    Except PyExc (Coordinator × List Nat) × List Event :=
  if !(envTruthy e.planning_mcp_path) then
    (.error (.valueError "PLANNING_MCP_PATH environment variable must be set"),
     Event.enterStack :: aexitEvents [])
  else
    match setup_planning_mcp_tools e pe fromServer with
    | .error exc => (.error exc, Event.enterStack :: aexitEvents [])
    | .ok (planningToolCount, pctx) =>
      (.ok ({ name := "coordination_agent", tools := planningToolCount,
              sub_agents := factoryAgents factories },
            pctx :: factoryCtxs factories),
       Event.enterStack :: Event.enterCtx pctx :: factoryEvents factories)

/-!
## Backend developer agent (src/agents/backend_dev/agent.py)

Both of its tool setups (filesystem, Context7) are individually wrapped in
try/except blocks that print a warning and continue.
-/

/-- One optional tool-setup step inside an agent factory (filesystem or
Context7 in src/agents/backend_dev/agent.py lines 41-60): on success the
returned stack is entered and the tools are appended; on any exception a
warning is printed and the factory continues.  Returns (tools gained,
sub-contexts entered, events). -/
def optionalSetupStep (who : String) (outcome : Except PyExc (Nat × Nat)) :
    Nat × List Nat × List Event :=
  match outcome with
  | .ok (t, c) => (t, [c], [Event.enterCtx c])
  | .error _ => (0, [], [Event.warn who])

/-- The backend developer `Agent` value, restricted to the fields the claims
are about. -/
structure BackendAgent where
  name : String
  tools : Nat
deriving Repr, DecidableEq

/-- Embedding of `create_backend_dev_agent` (src/agents/backend_dev/agent.py
lines 20-111): enter an `AsyncExitStack`, run the filesystem and Context7
setups each under its own catch-all, and build the agent from whatever tools
were gained. -/
def create_backend_dev_agent (fsSetup c7Setup : Except PyExc (Nat × Nat)) :
    Except PyExc (BackendAgent × List Nat) × List Event :=
  let fs := optionalSetupStep "filesystem tools" fsSetup
  let c7 := optionalSetupStep "Context7 tools" c7Setup
  (.ok ({ name := "backend_developer_agent", tools := fs.1 + c7.1 },
        fs.2.1 ++ c7.2.1),
   Event.enterStack :: (fs.2.2 ++ c7.2.2))

/-- The designer `Agent` value, restricted to the fields the claims are
about. -/
structure DesignerAgent where
  name : String
  tools : Nat
deriving Repr, DecidableEq

/-- Embedding of `create_designer_agent` (src/agents/designer/agent.py lines
19-67): enter an `AsyncExitStack`, then call `setup_filesystem_mcp_tools`
directly — with no inner try/except around it — so a raising setup reaches
the outer `except` branch, which calls the stack `__aexit__` and
re-raises. -/
def create_designer_agent (fsSetup : Except PyExc (Nat × Nat)) :
    Except PyExc (DesignerAgent × List Nat) × List Event :=
  match fsSetup with
  | .error exc => (.error exc, Event.enterStack :: aexitEvents [])
  | .ok (t, c) =>
    (.ok ({ name := "designer_agent", tools := t }, [c]),
     [Event.enterStack, Event.enterCtx c])

/-!
## Interactive loop (src/run.py)
-/

/-- The error text printed for a caught exception. -/
def excMessage : PyExc → String
  | .valueError m => m
  | .fileNotFound m => m
  | .other m => m

/-- Python `str.lower()`, modelled per character (as `String.toLower` is,
but in a form the kernel can evaluate). -/
def pyLower (s : String) : String := String.mk (s.data.map Char.toLower)

/-- The loop exit test at src/run.py line 35:
`user_input.lower() in [\x27exit\x27, \x27quit\x27]`. -/
def isExitCommand (s : String) : Bool :=
  pyLower s == "exit" || pyLower s == "quit"

/-- The `while True` loop body of `run_agent_interactive` (src/run.py lines
33-61) over a finite script of interactions: each script entry is the user
input together with the outcome of awaiting the agent on it.  Returns the
events of the loop and whether it terminated via `break` (as opposed to
exhausting the script).  A non-exit input awaits one agent call; a caught
exception prints an error and the loop continues with the next prompt. -/
def run_agent_loop : List (String × Except PyExc String) → List Event × Bool
  | [] => ([], false)
  | (inp, outcome) :: rest =>
    if isExitCommand inp then ([], true)
    else
      let stepEvents := match outcome with
        | .ok resp => [Event.agentCall, Event.printResponse resp]
        | .error exc => [Event.agentCall, Event.printError (excMessage exc)]
      let r := run_agent_loop rest
      (stepEvents ++ r.1, r.2)

/-- Embedding of `run_agent_interactive` (src/run.py lines 18-65): run the
loop, then the `finally` branch calls `exit_stack.__aexit__` exactly once. -/
def run_agent_interactive (script : List (String × Except PyExc String))
    (stack : List Nat) : List Event :=
  (run_agent_loop script).1 ++ aexitEvents stack

/-- A full coordination-agent session (`run_coordination_agent`, src/run.py
lines 67-97): create the coordinator, and on success drive it with
`run_agent_interactive`; on failure the exception was already cleaned up by
the `except` branch of `create_coordinator_agent`. -/
def run_coordination_session (e : Env) (pe : String → Bool)
    (fromServer : Except PyExc MCPFromServer) (factories : List FactoryOutcome)
    (script : List (String × Except PyExc String)) : List Event :=
  match create_coordinator_agent e pe fromServer factories with
  | (.ok (_, stack), evs) => evs ++ run_agent_interactive script stack
  | (.error _, evs) => evs

/-!
## Exit codes (src/run.py `main`, src/diagnostics.py `main`)
-/

/-- Exit code of `run_coordination_agent` (src/run.py lines 67-97): every
exception from agent initialization is caught by one of the three handlers
and turned into `sys.exit(1)`; otherwise the interactive session runs and
the process later ends normally (code 0). -/
def run_coordination_agent_exit (e : Env) (pe : String → Bool)
    (fromServer : Except PyExc MCPFromServer) (factories : List FactoryOutcome) : Nat :=
  match (create_coordinator_agent e pe fromServer factories).1 with
  | .error _ => 1
  | .ok _ => 0

/-- Exit code of `main` in src/run.py (lines 313-329) for the default
coordination agent: `sys.exit(1)` when `check_environment_setup` fails,
otherwise the code of the selected agent runner. -/
def run_main_exit (e : Env) (pe : String → Bool)
    (fromServer : Except PyExc MCPFromServer) (factories : List FactoryOutcome) : Nat :=
  if check_environment_setup e pe then
    run_coordination_agent_exit e pe fromServer factories
  else 1

/-- Exit code of src/diagnostics.py (lines 216-218): `main` returns
`validation[\x22valid\x22]` and the script exits 0 when it is true, 1
otherwise. -/
def diagnostics_exit (e : Env) (pe : String → Bool) : Nat :=
  if (Config.validate e pe).valid then 0 else 1

/-!
## Custom Google search tool (src/agents/research/google_search_custom_tool.py)
-/

/-- An item of the `items` list of a Custom Search API response; each field
is read with `item.get(key, default)`. -/
structure SearchItem where
  title : Option String := none
  link : Option String := none
  snippet : Option String := none
deriving Repr, DecidableEq

/-- One entry of the formatted `results` list. -/
structure FormattedResult where
  title : String
  link : String
  snippet : String
deriving Repr, DecidableEq

/-- Outcome of the `search_sync` call run in the executor: a response with
its `items` list, an `HttpError` with a status code, or any other
exception. -/
inductive SearchOutcome where
  | ok (items : List SearchItem)
  | httpError (status : String)
  | exc (msg : String)
deriving Repr, DecidableEq

/-- Python `str.replace(chr(10), chr(32))` on the snippet, modelled per
character. -/
def replaceNewlines (s : String) : String :=
  String.mk (s.data.map (fun c => if c = '\n' then ' ' else c))

/-- Python `str.strip()`: drop leading and trailing whitespace. -/
def pyStrip (s : String) : String :=
  String.mk (((s.data.dropWhile Char.isWhitespace).reverse.dropWhile
    Char.isWhitespace).reverse)

/-- Formatting of one search item (lines 88-93 of the tool): defaulted
fields, with newlines in the snippet replaced by spaces and the result
stripped. -/
def formatItem (it : SearchItem) : FormattedResult :=
  { title := it.title.getD "N/A"
    link := it.link.getD "#"
    snippet := pyStrip (replaceNewlines (it.snippet.getD "N/A")) }

/-- The dictionary returned by `_arun`: a `status` key, a `message` key, and
(in the success shape) a `results` key. -/
structure ArunResult where
  status : String
  message : String
  results : Option (List FormattedResult) := none
deriving Repr, DecidableEq

/-- Embedding of `CustomGoogleSearchTool._arun` (lines 56-105).
`serviceInit` is whether `self.service` was built; `search` maps the
clamped result count actually passed to the API to the outcome of the call.
Returns the result dictionary together with the count requested from the
API (`none` when no API call was made). -/
def CustomGoogleSearchTool.arun (serviceInit : Bool) (query : String)
    (num_results : Int) (search : Int → SearchOutcome) : ArunResult × Option Int :=
  if !serviceInit then
    ({ status := "error", message := "Google API service not initialized." }, none)
  else
    let num := max 1 (min num_results 10)
    match search num with
    | .ok items =>
      let formatted := items.map formatItem
      let message :=
        if items.isEmpty then
          "No results found for query: \x27" ++ query ++ "\x27."
        else
          "Successfully found " ++ toString items.length ++
            " results for query: \x27" ++ query ++ "\x27."
      ({ status := "success", message := message, results := some formatted }, some num)
    | .httpError st =>
      ({ status := "error",
         message := "API error " ++ st ++ ". Check API Key/CX ID/Quotas." }, some num)
    | .exc m =>
      ({ status := "error",
         message := "Unexpected error during search: " ++ m }, some num)

/-!
## Helper lemmas about traces
-/

theorem entersOf_append (a b : List Event) :
    entersOf (a ++ b) = entersOf a ++ entersOf b := by
  simp [entersOf, List.filterMap_append]

theorem releasesOf_append (a b : List Event) :
    releasesOf (a ++ b) = releasesOf a ++ releasesOf b := by
  simp [releasesOf, List.filterMap_append]

theorem aexitCount_append (a b : List Event) :
    aexitCount (a ++ b) = aexitCount a + aexitCount b := by
  simp [aexitCount, List.countP_append]

theorem entersOf_map_releaseCtx (l : List Nat) :
    entersOf (l.map Event.releaseCtx) = [] := by
  induction l with
  | nil => rfl
  | cons c rest ih => simp [entersOf, List.filterMap_cons] at *

theorem releasesOf_map_releaseCtx (l : List Nat) :
    releasesOf (l.map Event.releaseCtx) = l := by
  induction l with
  | nil => rfl
  | cons c rest ih => simp [releasesOf, List.filterMap_cons] at *; exact ih

theorem aexitCount_map_releaseCtx (l : List Nat) :
    aexitCount (l.map Event.releaseCtx) = 0 := by
  induction l with
  | nil => rfl
  | cons c rest ih => simp [aexitCount, List.countP_cons] at *

theorem entersOf_aexitEvents (st : List Nat) : entersOf (aexitEvents st) = [] := by
  have h := entersOf_map_releaseCtx st.reverse
  simp [aexitEvents, entersOf, List.filterMap_cons] at *

theorem releasesOf_aexitEvents (st : List Nat) :
    releasesOf (aexitEvents st) = st.reverse := by
  have h := releasesOf_map_releaseCtx st.reverse
  simp [aexitEvents, releasesOf, List.filterMap_cons] at *
  exact h

theorem aexitCount_aexitEvents (st : List Nat) : aexitCount (aexitEvents st) = 1 := by
  have h := aexitCount_map_releaseCtx st.reverse
  simp [aexitEvents, aexitCount, List.countP_cons] at *

theorem aexitCount_enterStack (l : List Event) :
    aexitCount (Event.enterStack :: l) = aexitCount l := by
  simp [aexitCount, List.countP_cons]

theorem aexitCount_enterCtx (c : Nat) (l : List Event) :
    aexitCount (Event.enterCtx c :: l) = aexitCount l := by
  simp [aexitCount, List.countP_cons]

theorem entersOf_enterStack (l : List Event) :
    entersOf (Event.enterStack :: l) = entersOf l := by
  simp [entersOf, List.filterMap_cons]

theorem entersOf_enterCtx (c : Nat) (l : List Event) :
    entersOf (Event.enterCtx c :: l) = c :: entersOf l := by
  simp [entersOf, List.filterMap_cons]

theorem releasesOf_enterStack (l : List Event) :
    releasesOf (Event.enterStack :: l) = releasesOf l := by
  simp [releasesOf, List.filterMap_cons]

theorem releasesOf_enterCtx (c : Nat) (l : List Event) :
    releasesOf (Event.enterCtx c :: l) = releasesOf l := by
  simp [releasesOf, List.filterMap_cons]

theorem entersOf_factoryEvents (fs : List FactoryOutcome) :
    entersOf (factoryEvents fs) = factoryCtxs fs := by
  induction fs with
  | nil => rfl
  | cons f rest ih =>
    obtain ⟨who, out⟩ := f
    cases out with
    | ok p =>
      obtain ⟨a, c⟩ := p
      simp [factoryEvents, factoryCtxs, entersOf, List.filterMap_cons] at *
      exact ih
    | error exc =>
      simp [factoryEvents, factoryCtxs, entersOf, List.filterMap_cons] at *
      exact ih

theorem releasesOf_factoryEvents (fs : List FactoryOutcome) :
    releasesOf (factoryEvents fs) = [] := by
  induction fs with
  | nil => rfl
  | cons f rest ih =>
    obtain ⟨who, out⟩ := f
    cases out with
    | ok p =>
      obtain ⟨a, c⟩ := p
      simp [factoryEvents, releasesOf, List.filterMap_cons] at *
      exact ih
    | error exc =>
      simp [factoryEvents, releasesOf, List.filterMap_cons] at *
      exact ih

theorem aexitCount_factoryEvents (fs : List FactoryOutcome) :
    aexitCount (factoryEvents fs) = 0 := by
  induction fs with
  | nil => rfl
  | cons f rest ih =>
    obtain ⟨who, out⟩ := f
    cases out with
    | ok p =>
      obtain ⟨a, c⟩ := p
      simp [factoryEvents, aexitCount, List.countP_cons] at *
      exact ih
    | error exc =>
      simp [factoryEvents, aexitCount, List.countP_cons] at *
      exact ih

theorem loop_events_neutral (s : List (String × Except PyExc String)) :
    entersOf (run_agent_loop s).1 = [] ∧ releasesOf (run_agent_loop s).1 = [] ∧
    aexitCount (run_agent_loop s).1 = 0 := by
  induction s with
  | nil => exact ⟨rfl, rfl, rfl⟩
  | cons p rest ih =>
    obtain ⟨inp, out⟩ := p
    by_cases h : isExitCommand inp = true
    · simp [run_agent_loop, h, entersOf, releasesOf, aexitCount]
    · cases out with
      | ok resp =>
        simp [run_agent_loop, h, entersOf, releasesOf, aexitCount,
              List.filterMap_cons, List.countP_cons] at *
        exact ih
      | error exc =>
        simp [run_agent_loop, h, entersOf, releasesOf, aexitCount,
              List.filterMap_cons, List.countP_cons] at *
        exact ih

theorem factoryAgents_eq_filterMap (fs : List FactoryOutcome) :
    factoryAgents fs = fs.filterMap (fun f => match f.2 with
      | .ok (a, _) => some a
      | .error _ => none) := by
  induction fs with
  | nil => rfl
  | cons f rest ih =>
    obtain ⟨who, out⟩ := f
    cases out with
    | ok p => obtain ⟨a, c⟩ := p; simp [factoryAgents, List.filterMap_cons, ih]
    | error exc => simp [factoryAgents, List.filterMap_cons, ih]

theorem warn_mem_factoryEvents (fs : List FactoryOutcome) (who : String) (exc : PyExc)
    (h : (who, Except.error exc) ∈ fs) : Event.warn who ∈ factoryEvents fs := by
  induction fs with
  | nil => simp at h
  | cons f rest ih =>
    obtain ⟨w, out⟩ := f
    rcases List.mem_cons.mp h with heq | hmem
    · cases heq
      simp [factoryEvents]
    · cases out with
      | ok p =>
        obtain ⟨a, c⟩ := p
        exact List.mem_cons_of_mem _ (ih hmem)
      | error excW =>
        exact List.mem_cons_of_mem _ (ih hmem)

theorem setup_ok_path_truthy (e : Env) (pe : String → Bool)
    (fromServer : Except PyExc MCPFromServer) (tools pctx : Nat)
    (h : setup_planning_mcp_tools e pe fromServer = .ok (tools, pctx)) :
    envTruthy e.planning_mcp_path = true := by
  cases hp : envTruthy e.planning_mcp_path with
  | true => rfl
  | false =>
    rw [setup_planning_mcp_tools, hp] at h
    simp at h

/-!
## Claim theorems
-/

/-- C1: in every run of a coordination session, the `AsyncExitStack` entered
at the start of `create_coordinator_agent` has `__aexit__` called exactly
once — in the except branch of `create_coordinator_agent` when a step after
acquisition raises, or in the finally branch of `run_agent_interactive`
otherwise — and the sub-contexts entered into it are released in reverse
order of acquisition. -/
theorem coordinator_session_releases_stack_exactly_once
    (e : Env) (pe : String → Bool) (fromServer : Except PyExc MCPFromServer)
    (factories : List FactoryOutcome)
    (script : List (String × Except PyExc String)) :
    aexitCount (run_coordination_session e pe fromServer factories script) = 1 ∧
    releasesOf (run_coordination_session e pe fromServer factories script) =
      (entersOf (run_coordination_session e pe fromServer factories script)).reverse := by
  by_cases h : (!envTruthy e.planning_mcp_path) = true
  · simp [run_coordination_session, create_coordinator_agent, h, aexitEvents,
          aexitCount, releasesOf, entersOf, List.countP_cons, List.filterMap_cons]
  · cases hs : setup_planning_mcp_tools e pe fromServer with
    | error exc =>
      simp [run_coordination_session, create_coordinator_agent, h, hs, aexitEvents,
            aexitCount, releasesOf, entersOf, List.countP_cons, List.filterMap_cons]
    | ok p =>
      obtain ⟨planningToolCount, pctx⟩ := p
      obtain ⟨hl1, hl2, hl3⟩ := loop_events_neutral script
      simp only [run_coordination_session, create_coordinator_agent, h, if_false,
                 Bool.false_eq_true, hs, run_agent_interactive]
      constructor
      · simp [List.cons_append, aexitCount_enterStack, aexitCount_enterCtx,
              aexitCount_append, aexitCount_factoryEvents, aexitCount_aexitEvents, hl3]
      · simp [List.cons_append, releasesOf_enterStack, releasesOf_enterCtx,
              releasesOf_append, releasesOf_factoryEvents, hl2, releasesOf_aexitEvents,
              entersOf_enterStack, entersOf_enterCtx, entersOf_append,
              entersOf_factoryEvents, hl1, entersOf_aexitEvents, List.reverse_cons]


/-- C2: for every outcome of the six specialized-agent factory calls inside
`create_coordinator_agent`, every exception raised by a factory is caught
with a warning and `create_coordinator_agent` still returns a coordinator
whose `sub_agents` are exactly the agents whose factories succeeded. -/
theorem coordinator_survives_factory_failures
    (e : Env) (pe : String → Bool) (fromServer : Except PyExc MCPFromServer)
    (factories : List FactoryOutcome) (planningToolCount pctx : Nat)
    (hsetup : setup_planning_mcp_tools e pe fromServer = .ok (planningToolCount, pctx)) :
    (create_coordinator_agent e pe fromServer factories).1 =
      .ok ({ name := "coordination_agent", tools := planningToolCount,
             sub_agents := factories.filterMap (fun f => match f.2 with
               | .ok (a, _) => some a
               | .error _ => none) },
           pctx :: factoryCtxs factories) ∧
    ∀ who exc, (who, Except.error exc) ∈ factories →
      Event.warn who ∈ (create_coordinator_agent e pe fromServer factories).2 := by
  have hp := setup_ok_path_truthy e pe fromServer planningToolCount pctx hsetup
  constructor
  · simp [create_coordinator_agent, hp, hsetup, factoryAgents_eq_filterMap]
  · intro who exc hmem
    simp only [create_coordinator_agent, hp, Bool.not_true, Bool.false_eq_true,
               if_false, hsetup]
    exact List.mem_cons_of_mem _ (List.mem_cons_of_mem _
      (warn_mem_factoryEvents factories who exc hmem))

/-- Environment with all three required variables set; used to instantiate
hypothesis-bearing theorems. -/
def envFull : Env :=
  { google_api_key := some "key", planning_api_token := some "token-1234",
    planning_mcp_path := some "/opt/planning-mcp" }

/-- Environment with nothing set. -/
def envEmpty : Env := {}

/-- A filesystem in which every path exists. -/
def peAll : String → Bool := fun _ => true

/-- A concrete factory list with one failing factory. -/
def factoriesDemo : List FactoryOutcome :=
  [("Backend Developer Agent", .ok ("backend_developer_agent", 11)),
   ("Frontend Developer Agent", .error (.other "npx missing")),
   ("Designer Agent", .ok ("designer_agent", 12))]

theorem coordinator_survives_factory_failures_witness :
    setup_planning_mcp_tools envFull peAll (.ok (.tuple 3 7)) = .ok (3, 7) ∧
    (create_coordinator_agent envFull peAll (.ok (.tuple 3 7)) factoriesDemo).1 =
      .ok ({ name := "coordination_agent", tools := 3,
             sub_agents := ["backend_developer_agent", "designer_agent"] },
           [7, 11, 12]) ∧
    Event.warn "Frontend Developer Agent" ∈
      (create_coordinator_agent envFull peAll (.ok (.tuple 3 7)) factoriesDemo).2 := by
  have h := coordinator_survives_factory_failures envFull peAll (.ok (.tuple 3 7))
    factoriesDemo 3 7 rfl
  refine ⟨rfl, ?_, ?_⟩
  · simpa [factoriesDemo, factoryCtxs] using h.1
  · exact h.2 "Frontend Developer Agent" (.other "npx missing") (by simp [factoriesDemo])

/-- Environment in which `GOOGLE_API_KEY` and `PLANNING_MCP_PATH` are set but
the required `PLANNING_API_TOKEN` is unset. -/
def envMissingToken : Env :=
  { google_api_key := some "key", planning_mcp_path := some "/opt/planning-mcp",
    planning_api_token := none }

/-- C3 counterexample: with `PLANNING_API_TOKEN` unset (a required variable
per `check_environment_setup`), `Config.validate` still reports the
configuration as valid, so validation does not flag every missing required
variable. -/
theorem validate_missing_token_counterexample :
    envTruthy envMissingToken.planning_api_token = false ∧
    (Config.validate envMissingToken peAll).valid = true ∧
    check_environment_setup envMissingToken peAll = false :=
  ⟨rfl, rfl, rfl⟩

/-- C3 (amended): `check_environment_setup` returns false whenever any of
`GOOGLE_API_KEY`, `PLANNING_MCP_PATH`, `PLANNING_API_TOKEN` is unset or
empty; `Config.validate` reports an invalid configuration listing the
missing variable only for `GOOGLE_API_KEY`, while a missing
`PLANNING_API_TOKEN` is reported as a warning, not a validity issue. -/
theorem required_config_flagging (e : Env) (pe : String → Bool) :
    (envTruthy e.google_api_key = false →
       (Config.validate e pe).valid = false ∧
       "GOOGLE_API_KEY is not set" ∈ (Config.validate e pe).issues) ∧
    ((envTruthy e.google_api_key = false ∨ envTruthy e.planning_mcp_path = false ∨
        envTruthy e.planning_api_token = false) →
       check_environment_setup e pe = false) ∧
    (envTruthy e.planning_api_token = false →
       "PLANNING_API_TOKEN is not set - planning features will be disabled" ∈
         (Config.validate e pe).warnings) := by
  refine ⟨?_, ?_, ?_⟩
  · intro hg
    constructor
    · simp [Config.validate, hg]
    · simp [Config.validate, hg]
  · intro hmiss
    cases hg : envTruthy e.google_api_key <;>
    cases hp : envTruthy e.planning_mcp_path <;>
    cases ht : envTruthy e.planning_api_token <;>
      simp [check_environment_setup, hg, hp, ht] at hmiss ⊢
  · intro ht
    simp [Config.validate, ht]

theorem required_config_flagging_witness :
    envTruthy envEmpty.google_api_key = false ∧
    (Config.validate envEmpty peAll).valid = false ∧
    "GOOGLE_API_KEY is not set" ∈ (Config.validate envEmpty peAll).issues ∧
    check_environment_setup envEmpty peAll = false ∧
    "PLANNING_API_TOKEN is not set - planning features will be disabled" ∈
      (Config.validate envEmpty peAll).warnings := by
  have h := required_config_flagging envEmpty peAll
  exact ⟨rfl, (h.1 rfl).1, (h.1 rfl).2, h.2.1 (Or.inl rfl), h.2.2 rfl⟩

/-- C4 counterexample: with `PLANNING_MCP_PATH` set and existing, an
exception raised by `setup_planning_mcp_tools` (here the
`MCPToolset.from_server` call failing) is not caught inside
`create_coordinator_agent`: the same exception propagates out of it. -/
theorem planning_setup_exception_propagates :
    setup_planning_mcp_tools envFull peAll (.error (.other "spawn failed")) =
      .error (.other "spawn failed") ∧
    (create_coordinator_agent envFull peAll (.error (.other "spawn failed"))
        factoriesDemo).1 =
      .error (.other "spawn failed") :=
  ⟨rfl, rfl⟩

/-- C4 (amended): the tool-connection setups that sit inside an inner
try/except of their factory — the filesystem and Context7 setups of
`create_backend_dev_agent` — have every exception caught with a printed
warning while the factory continues with a reduced tool set and still
returns an agent; but not every component setup is so wrapped: an exception
raised by `setup_planning_mcp_tools` inside `create_coordinator_agent`, and
one raised by `setup_filesystem_mcp_tools` inside `create_designer_agent`,
are not caught in their callers — each propagates out of its factory after
the exit stack is unwound. -/
theorem optional_setups_caught_planning_propagates
    (fsSetup c7Setup dsSetup : Except PyExc (Nat × Nat))
    (e : Env) (pe : String → Bool) (fromServer : Except PyExc MCPFromServer)
    (factories : List FactoryOutcome) (exc : PyExc)
    (hpath : envTruthy e.planning_mcp_path = true)
    (hsetup : setup_planning_mcp_tools e pe fromServer = .error exc) :
    (∃ a : BackendAgent, ∃ stack : List Nat,
       (create_backend_dev_agent fsSetup c7Setup).1 = .ok (a, stack)) ∧
    (∀ excF, fsSetup = .error excF →
       Event.warn "filesystem tools" ∈ (create_backend_dev_agent fsSetup c7Setup).2) ∧
    (∀ excC, c7Setup = .error excC →
       Event.warn "Context7 tools" ∈ (create_backend_dev_agent fsSetup c7Setup).2) ∧
    create_coordinator_agent e pe fromServer factories =
      (.error exc, Event.enterStack :: aexitEvents []) ∧
    (∀ excD, dsSetup = .error excD →
       create_designer_agent dsSetup =
         (.error excD, Event.enterStack :: aexitEvents [])) := by
  refine ⟨⟨_, _, rfl⟩, ?_, ?_, ?_, ?_⟩
  · intro excF hf
    subst hf
    simp [create_backend_dev_agent, optionalSetupStep]
  · intro excC hc
    subst hc
    simp [create_backend_dev_agent, optionalSetupStep]
  · simp [create_coordinator_agent, hpath, hsetup]
  · intro excD hd
    subst hd
    rfl

theorem optional_setups_caught_planning_propagates_witness :
    envTruthy envFull.planning_mcp_path = true ∧
    setup_planning_mcp_tools envFull peAll (.error (.other "boom")) =
      .error (.other "boom") ∧
    (create_backend_dev_agent (.error (.other "fs down")) (.ok (4, 21))).1 =
      .ok ({ name := "backend_developer_agent", tools := 4 }, [21]) ∧
    Event.warn "filesystem tools" ∈
      (create_backend_dev_agent (.error (.other "fs down")) (.ok (4, 21))).2 ∧
    (create_coordinator_agent envFull peAll (.error (.other "boom")) factoriesDemo).1 =
      .error (.other "boom") ∧
    create_designer_agent (.error (.other "fs down")) =
      (.error (.other "fs down"), [Event.enterStack, Event.aexitCalled]) := by
  have h := optional_setups_caught_planning_propagates
    (.error (.other "fs down")) (.ok (4, 21)) (.error (.other "fs down")) envFull peAll
    (.error (.other "boom")) factoriesDemo (.other "boom") rfl rfl
  refine ⟨rfl, rfl, rfl, h.2.1 (.other "fs down") rfl, ?_, ?_⟩
  · rw [h.2.2.2.1]
  · exact h.2.2.2.2 (.other "fs down") rfl

theorem validate_valid_eq (e : Env) (pe : String → Bool) :
    (Config.validate e pe).valid = (Config.validate e pe).issues.isEmpty := rfl

/-- C5: `setup_planning_mcp_tools` raises `ValueError` when
`PLANNING_MCP_PATH` is unset or empty, `FileNotFoundError` when it names a
path that does not exist, `ValueError` when `PLANNING_API_TOKEN` is unset or
empty, and only proceeds to spawn the MCP server process when all three
checks pass (in which case the result is exactly that of the
`MCPToolset.from_server` call). -/
theorem setup_planning_mcp_tools_checks
    (e : Env) (pe : String → Bool) (fromServer : Except PyExc MCPFromServer) :
    (envTruthy e.planning_mcp_path = false →
       setup_planning_mcp_tools e pe fromServer =
         .error (.valueError "PLANNING_MCP_PATH environment variable must be set")) ∧
    (envTruthy e.planning_mcp_path = true →
       pe (envGetD e.planning_mcp_path "") = false →
       setup_planning_mcp_tools e pe fromServer =
         .error (.fileNotFound ("PLANNING_MCP_PATH path does not exist: " ++
                                envGetD e.planning_mcp_path ""))) ∧
    (envTruthy e.planning_mcp_path = true →
       pe (envGetD e.planning_mcp_path "") = true →
       envTruthy e.planning_api_token = false →
       setup_planning_mcp_tools e pe fromServer =
         .error (.valueError "PLANNING_API_TOKEN environment variable must be set")) ∧
    (envTruthy e.planning_mcp_path = true →
       pe (envGetD e.planning_mcp_path "") = true →
       envTruthy e.planning_api_token = true →
       setup_planning_mcp_tools e pe fromServer = fromServer.bind extractToolsStack) := by
  refine ⟨?_, ?_, ?_, ?_⟩
  · intro h1
    simp [setup_planning_mcp_tools, h1]
  · intro h1 h2
    simp [setup_planning_mcp_tools, h1, h2]
  · intro h1 h2 h3
    simp [setup_planning_mcp_tools, h1, h2, h3]
  · intro h1 h2 h3
    simp [setup_planning_mcp_tools, h1, h2, h3]

theorem setup_planning_mcp_tools_checks_witness :
    envTruthy envEmpty.planning_mcp_path = false ∧
    setup_planning_mcp_tools envEmpty peAll (.ok (.tuple 2 5)) =
      .error (.valueError "PLANNING_MCP_PATH environment variable must be set") ∧
    setup_planning_mcp_tools envFull peAll (.ok (.tuple 2 5)) = .ok (2, 5) := by
  have h0 := setup_planning_mcp_tools_checks envEmpty peAll (.ok (.tuple 2 5))
  have h1 := setup_planning_mcp_tools_checks envFull peAll (.ok (.tuple 2 5))
  exact ⟨rfl, h0.1 rfl, (h1.2.2.2 rfl rfl rfl).trans rfl⟩

/-- C6: the CLI entry points use no exit codes beyond 0 and 1: `main` in
src/run.py exits 1 when `check_environment_setup` fails, the coordination
agent runner exits 1 when agent initialization raises, and src/diagnostics.py
exits 0 if and only if `Config.validate` reports no critical issues, 1
otherwise. -/
theorem cli_exit_codes
    (e : Env) (pe : String → Bool) (fromServer : Except PyExc MCPFromServer)
    (factories : List FactoryOutcome) :
    (run_main_exit e pe fromServer factories = 0 ∨
       run_main_exit e pe fromServer factories = 1) ∧
    (diagnostics_exit e pe = 0 ∨ diagnostics_exit e pe = 1) ∧
    (check_environment_setup e pe = false →
       run_main_exit e pe fromServer factories = 1) ∧
    (∀ exc, (create_coordinator_agent e pe fromServer factories).1 = .error exc →
       run_coordination_agent_exit e pe fromServer factories = 1) ∧
    (diagnostics_exit e pe = 0 ↔ (Config.validate e pe).issues = []) := by
  refine ⟨?_, ?_, ?_, ?_, ?_⟩
  · by_cases hc : check_environment_setup e pe
    · cases hcr : (create_coordinator_agent e pe fromServer factories).1 with
      | error exc =>
        right
        simp [run_main_exit, hc, run_coordination_agent_exit, hcr]
      | ok p =>
        left
        simp [run_main_exit, hc, run_coordination_agent_exit, hcr]
    · right
      simp [run_main_exit, hc]
  · by_cases hv : (Config.validate e pe).valid
    · left
      simp [diagnostics_exit, hv]
    · right
      simp [diagnostics_exit, hv]
  · intro hc
    simp [run_main_exit, hc]
  · intro exc hexc
    simp [run_coordination_agent_exit, hexc]
  · unfold diagnostics_exit
    rw [validate_valid_eq]
    by_cases hi : (Config.validate e pe).issues.isEmpty
    · simp [hi, List.isEmpty_iff.mp hi]
    · simp only [hi, Bool.false_eq_true, if_false]
      simp only [List.isEmpty_iff] at hi
      simp [hi]

theorem cli_exit_codes_witness :
    check_environment_setup envEmpty peAll = false ∧
    run_main_exit envEmpty peAll (.ok (.tuple 1 2)) [] = 1 ∧
    (create_coordinator_agent envFull peAll (.error (.other "down")) []).1 =
      .error (.other "down") ∧
    run_coordination_agent_exit envFull peAll (.error (.other "down")) [] = 1 ∧
    diagnostics_exit envFull peAll = 0 := by
  have h1 := cli_exit_codes envEmpty peAll (.ok (.tuple 1 2)) []
  have h2 := cli_exit_codes envFull peAll (.error (.other "down")) []
  exact ⟨rfl, h1.2.2.1 rfl, rfl, h2.2.2.2.1 (.other "down") rfl, rfl⟩

/-- C7: the interactive driving loop terminates via `break` exactly when
some user input, lower-cased, equals exit or quit; every input before that
triggers exactly one awaited agent call whose result is printed, and a
raising agent call prints the error and the loop continues with the next
prompt. -/
theorem interactive_loop_spec (script : List (String × Except PyExc String)) :
    ((run_agent_loop script).2 = true ↔ ∃ p ∈ script, isExitCommand p.1 = true) ∧
    (run_agent_loop script).1 =
      (script.takeWhile (fun p => !isExitCommand p.1)).flatMap
        (fun p => match p.2 with
          | .ok resp => [Event.agentCall, Event.printResponse resp]
          | .error exc => [Event.agentCall, Event.printError (excMessage exc)]) := by
  induction script with
  | nil => simp [run_agent_loop]
  | cons p rest ih =>
    obtain ⟨inp, out⟩ := p
    by_cases h : isExitCommand inp = true
    · constructor
      · simp [run_agent_loop, h]
      · simp [run_agent_loop, h, List.takeWhile_cons]
    · constructor
      · cases out with
        | ok resp => simp [run_agent_loop, h, ih.1]
        | error exc => simp [run_agent_loop, h, ih.1]
      · cases out with
        | ok resp =>
          simp [run_agent_loop, h, List.takeWhile_cons, List.flatMap_cons, ih.2]
        | error exc =>
          simp [run_agent_loop, h, List.takeWhile_cons, List.flatMap_cons, ih.2]

theorem interactive_loop_spec_witness :
    (run_agent_loop [("hello", Except.ok "hi"), ("Quit", Except.ok "later")]).2 = true ∧
    (run_agent_loop [("hello", Except.error (PyExc.other "api down")),
                     ("more", Except.ok "ok2")]).2 = false ∧
    (run_agent_loop [("hello", Except.error (PyExc.other "api down")),
                     ("more", Except.ok "ok2")]).1 =
      [Event.agentCall, Event.printError "api down",
       Event.agentCall, Event.printResponse "ok2"] := by
  have h := interactive_loop_spec [("hello", Except.ok "hi"), ("Quit", Except.ok "later")]
  refine ⟨h.1.mpr ⟨("Quit", Except.ok "later"), by simp, by decide⟩, rfl, rfl⟩

/-- C8: in `Config`, the planning server is enabled iff both
`PLANNING_MCP_PATH` and `PLANNING_API_TOKEN` are non-empty, the websearch
server is enabled iff `BRAVE_API_KEY` is non-empty, the filesystem, context7
and playwright servers are always enabled, and `get_enabled_mcp_servers`
returns exactly the server configs whose enabled flag is true. -/
theorem config_enabled_flags (e : Env) :
    Config.serverEnabled e "planning" =
      some (envTruthy e.planning_mcp_path && envTruthy e.planning_api_token) ∧
    Config.serverEnabled e "websearch" = some (envTruthy e.brave_api_key) ∧
    Config.serverEnabled e "filesystem" = some true ∧
    Config.serverEnabled e "context7" = some true ∧
    Config.serverEnabled e "playwright" = some true ∧
    ∀ name cfg, (name, cfg) ∈ Config.get_enabled_mcp_servers e ↔
      ((name, cfg) ∈ Config.mcp_servers e ∧ cfg.enabled = true) := by
  refine ⟨rfl, rfl, rfl, rfl, rfl, ?_⟩
  intro name cfg
  simp [Config.get_enabled_mcp_servers, List.mem_filter]

theorem config_enabled_flags_witness :
    Config.serverEnabled envFull "planning" = some true ∧
    Config.serverEnabled envFull "websearch" = some false ∧
    Config.serverEnabled envMissingToken "planning" = some false := by
  have h1 := config_enabled_flags envFull
  have h2 := config_enabled_flags envMissingToken
  exact ⟨h1.1.trans rfl, h1.2.1.trans rfl, h2.1.trans rfl⟩

/-- C9: `CustomGoogleSearchTool._arun` always returns a dictionary whose
status is success or error and never propagates an exception: an
uninitialized API client, an `HttpError`, or any other exception yields
status error, and otherwise status is success with one formatted result per
search item. -/
theorem arun_result_status_total (serviceInit : Bool) (query : String)
    (num_results : Int) (search : Int → SearchOutcome) :
    ((CustomGoogleSearchTool.arun serviceInit query num_results search).1.status = "success" ∨
     (CustomGoogleSearchTool.arun serviceInit query num_results search).1.status = "error") ∧
    (serviceInit = false →
       (CustomGoogleSearchTool.arun serviceInit query num_results search).1.status = "error") ∧
    (∀ items, serviceInit = true →
       search (max 1 (min num_results 10)) = .ok items →
       (CustomGoogleSearchTool.arun serviceInit query num_results search).1.status = "success" ∧
       (CustomGoogleSearchTool.arun serviceInit query num_results search).1.results =
         some (items.map formatItem)) ∧
    (∀ st, serviceInit = true →
       search (max 1 (min num_results 10)) = .httpError st →
       (CustomGoogleSearchTool.arun serviceInit query num_results search).1.status = "error") ∧
    (∀ m, serviceInit = true →
       search (max 1 (min num_results 10)) = .exc m →
       (CustomGoogleSearchTool.arun serviceInit query num_results search).1.status = "error") := by
  refine ⟨?_, ?_, ?_, ?_, ?_⟩
  · cases serviceInit with
    | false => right; simp [CustomGoogleSearchTool.arun]
    | true =>
      cases hout : search (max 1 (min num_results 10)) with
      | ok items => left; simp [CustomGoogleSearchTool.arun, hout]
      | httpError st => right; simp [CustomGoogleSearchTool.arun, hout]
      | exc m => right; simp [CustomGoogleSearchTool.arun, hout]
  · intro hs
    subst hs
    simp [CustomGoogleSearchTool.arun]
  · intro items hs hout
    subst hs
    constructor <;> simp [CustomGoogleSearchTool.arun, hout]
  · intro st hs hout
    subst hs
    simp [CustomGoogleSearchTool.arun, hout]
  · intro m hs hout
    subst hs
    simp [CustomGoogleSearchTool.arun, hout]

theorem arun_result_status_total_witness :
    (CustomGoogleSearchTool.arun false "q" 5 (fun _ => .ok [])).1.status = "error" ∧
    (CustomGoogleSearchTool.arun true "q" 5
        (fun _ => .ok [{ title := some "t" }])).1.status = "success" ∧
    (CustomGoogleSearchTool.arun true "q" 5
        (fun _ => .ok [{ title := some "t" }])).1.results =
      some [{ title := "t", link := "#", snippet := "N/A" }] ∧
    (CustomGoogleSearchTool.arun true "q" 5 (fun _ => .httpError "403")).1.status = "error" := by
  have h1 := arun_result_status_total false "q" 5 (fun _ => SearchOutcome.ok [])
  have h2 := arun_result_status_total true "q" 5
    (fun _ => SearchOutcome.ok [{ title := some "t" }])
  have h3 := arun_result_status_total true "q" 5 (fun _ => SearchOutcome.httpError "403")
  refine ⟨h1.2.1 rfl, (h2.2.2.1 [{ title := some "t" }] rfl rfl).1, ?_, h3.2.2.2.1 "403" rfl rfl⟩
  exact ((h2.2.2.1 [{ title := some "t" }] rfl rfl).2).trans rfl

/-- C10: for every integer `num_results`, the count actually requested from
the Custom Search API by `_arun` equals `max(1, min(num_results, 10))` and
therefore always lies between 1 and 10 inclusive. -/
theorem arun_num_results_clamped (query : String) (num_results : Int)
    (search : Int → SearchOutcome) (b : Bool) :
    (CustomGoogleSearchTool.arun true query num_results search).2 =
      some (max 1 (min num_results 10)) ∧
    (∀ m, (CustomGoogleSearchTool.arun b query num_results search).2 = some m →
       m = max 1 (min num_results 10) ∧ 1 ≤ m ∧ m ≤ 10) := by
  constructor
  · cases hout : search (max 1 (min num_results 10)) <;>
      simp [CustomGoogleSearchTool.arun, hout]
  · intro m hm
    cases b with
    | false => simp [CustomGoogleSearchTool.arun] at hm
    | true =>
      cases hout : search (max 1 (min num_results 10)) <;>
        simp [CustomGoogleSearchTool.arun, hout] at hm <;>
        refine ⟨hm.symm, ?_, ?_⟩ <;> omega

theorem arun_num_results_clamped_witness :
    (CustomGoogleSearchTool.arun true "q" 99 (fun _ => .ok [])).2 = some 10 ∧
    (CustomGoogleSearchTool.arun true "q" (-3) (fun _ => .ok [])).2 = some 1 := by
  have h99 := arun_num_results_clamped "q" 99 (fun _ => SearchOutcome.ok []) true
  have hm3 := arun_num_results_clamped "q" (-3) (fun _ => SearchOutcome.ok []) true
  exact ⟨h99.1.trans (by decide), hm3.1.trans (by decide)⟩
